import Mathlib

/-
  Verification development for the AFIP SDK core:
  the ticket-authorization lifecycle (Afip.prototype.GetServiceTA and
  Afip.prototype.CreateServiceTA in src/Class/ExportElectronicBilling.js),
  and the web-service gateway request path (executeRequest, getWSInitialRequest
  and the error normalizer in src/Class/ElectronicBilling.js and
  src/Class/ExportElectronicBilling.js).

  JavaScript runtime values are shallowly embedded as the JSON-like type JVal;
  a thrown TypeError (property access on undefined or null) is modelled by
  Option, with none standing for the exception.  Machine time is an Int count
  of milliseconds.  Remote, cryptographic and storage effects are inputs of
  the embedded functions (each call site outcome is a parameter), and the
  embedded control flow is translated statement by statement from the source.
-/

namespace AfipSDK

/-- JSON-like runtime values of the JavaScript program.  The undefined
constructor models the JavaScript value undefined, distinct from null.
Object fields keep insertion order, as in the source objects. -/
inductive JVal where
  | undefined : JVal
  | null : JVal
  | bool : Bool → JVal
  | num : Int → JVal
  | str : String → JVal
  | arr : List JVal → JVal
  | obj : List (String × JVal) → JVal

namespace JVal

/-- JavaScript truthiness.  NaN does not arise because numbers are
embedded as integers. -/
def truthy : JVal → Bool
  | .undefined => false
  | .null => false
  | .bool b => b
  | .num n => n != 0
  | .str s => s != ""
  | .arr _ => true
  | .obj _ => true

/-- Property access v.k: on undefined or null it throws a TypeError
(modelled as none); on an object it yields the field value or undefined;
on the remaining primitives it yields undefined (named properties of
arrays, strings and numbers are not used by the embedded code). -/
def getField : JVal → String → Option JVal
  | .undefined, _ => none
  | .null, _ => none
  | .obj kvs, k => some (match kvs.lookup k with | some v => v | none => .undefined)
  | _, _ => some .undefined

/-- Index access v[i]: TypeError on undefined and null; element or
undefined on arrays; numeric-named field on objects; character on
strings; undefined on the other primitives. -/
def getIndex : JVal → Nat → Option JVal
  | .undefined, _ => none
  | .null, _ => none
  | .arr l, i => some (l.getD i .undefined)
  | .obj kvs, i => some (match kvs.lookup (toString i) with | some v => v | none => .undefined)
  | .str s, i => some (match s.toList.get? i with | some c => .str (String.mk [c]) | none => .undefined)
  | _, _ => some .undefined

/-- Replace the binding of key k, keeping field order; append when absent. -/
def setEntry : List (String × JVal) → String → JVal → List (String × JVal)
  | [], k, v => [(k, v)]
  | (k', v') :: rest, k, v =>
      if k' = k then (k, v) :: rest else (k', v') :: setEntry rest k v

/-- Property assignment v.k = w on an object; on other values the
assignment is silently ignored (sloppy-mode JavaScript on primitives;
the embedded code only assigns to values already checked truthy). -/
def setField : JVal → String → JVal → JVal
  | .obj kvs, k, v => .obj (setEntry kvs k v)
  | other, _, _ => other

/-- Array.isArray. -/
def isArr : JVal → Bool
  | .arr _ => true
  | _ => false

end JVal

/-- JavaScript strict equality on primitive values; operands of
different types are never strictly equal.  Reference equality of
arrays and objects is not needed by the embedded comparisons, which
always have a primitive literal on one side. -/
def jsStrictEq : JVal → JVal → Bool
  | .bool a, .bool b => a == b
  | .str a, .str b => a == b
  | .num a, .num b => a == b
  | .null, .null => true
  | .undefined, .undefined => true
  | _, _ => false

/-- Strict equality of a value against a string literal. -/
def jsStrictEqStr (v : JVal) (s : String) : Bool :=
  jsStrictEq v (.str s)

/-- ToNumber on a string: empty and whitespace-free decimal forms only;
other strings are NaN (none).  This covers every string the embedded
comparisons meet. -/
def jsStringToNumber (s : String) : Option Int :=
  match s.toInt? with
  | some n => some n
  | none => if s = "" then some 0 else none

/-- JavaScript ToNumber; none models NaN.  Conversion of arrays and
objects (via ToPrimitive) is approximated as NaN; the embedded code
never coerces a non-primitive whose result a theorem depends on. -/
def jsToNumber : JVal → Option Int
  | .num n => some n
  | .str s => jsStringToNumber s
  | .bool b => some (if b then 1 else 0)
  | .null => some 0
  | .undefined => none
  | .arr _ => none
  | .obj _ => none

/-- Loose inequality x != 0 as used in the FEXErr guard: null and
undefined are not loosely equal to 0; other values compare by ToNumber
with NaN unequal to everything. -/
def jsLooseNeZero : JVal → Bool
  | .null => true
  | .undefined => true
  | v => match jsToNumber v with
         | some n => n != 0
         | none => true

/-- The test +x !== 0 (unary plus then strict comparison): NaN is
strictly unequal to 0. -/
def jsPlusStrictNeZero (v : JVal) : Bool :=
  match jsToNumber v with
  | some n => n != 0
  | none => true

/-- The value of new Date(x) as an optional millisecond timestamp;
none is an Invalid Date.  String parsing is the host Date parser,
supplied as a parameter.  new Date(undefined) is invalid, new
Date(null) and new Date(false) are the epoch. -/
def jsDateOf (parse : String → Option Int) : JVal → Option Int
  | .str s => parse s
  | .num n => some n
  | .bool b => some (if b then 1 else 0)
  | .null => some 0
  | .undefined => none
  | .arr _ => none
  | .obj _ => none

/-- Date < Date relational comparison: false whenever either side is
an Invalid Date (NaN valueOf). -/
def jsDateLt : Option Int → Option Int → Bool
  | some a, some b => a < b
  | _, _ => false

/-- A JavaScript Error value as observed by the catch clause in
GetServiceTA: its name and message. -/
structure JsError where
  name : String
  message : String
deriving DecidableEq, Repr

/-
  Afip.prototype.GetServiceTA (src/Class/ExportElectronicBilling.js).

  Source control flow, translated clause by clause:

    const taFilePath = `TA-${CUIT}-${service}${production ? "-production" : ""}.json`
    let afipDataToken = null;
    try { afipDataToken = await _s3Connection.readFileS3(taFilePath); }
    catch (e) {
      console.log(e);
      if (!e.message === "The specified key does not exist.") { throw e; }
    }
    if (afipDataToken) {
      const actualTime = new Date(Date.now() + 600000);
      const expirationTime = new Date(afipDataToken.header[1].expirationtime);
      if (actualTime < expirationTime) {
        return { token: afipDataToken.credentials.token,
                 sign: afipDataToken.credentials.sign };
      }
    }
    if (firstTry === false) { throw new Error("Error getting Token Autorization"); }
    await this.CreateServiceTA(service).catch(err => {
      throw new Error(`Error getting Token Autorization ${err}`); });
    return await this.GetServiceTA(service, false);
-/

/-- The ticket file key built in GetServiceTA:
TA-(CUIT)-(service)(-production when production).json. -/
def taFilePathGet (cuit service : String) (production : Bool) : String :=
  "TA-" ++ cuit ++ "-" ++ service ++ (if production then "-production" else "") ++ ".json"

/-- The ticket file key built in CreateServiceTA, textually the same
template as the one in GetServiceTA. -/
def taFileNameCreate (cuit service : String) (production : Bool) : String :=
  "TA-" ++ cuit ++ "-" ++ service ++ (if production then "-production" else "") ++ ".json"

/-- The rethrow condition of the catch clause in GetServiceTA:
the source tests (!e.message === (the not-found message)); by operator
precedence the left side is a boolean, strictly compared to a string. -/
def rethrowAfterLog (e : JsError) : Bool :=
  jsStrictEq (.bool (e.message == "")) (.str "The specified key does not exist.")

/-- Outcome of one read-and-validate pass of GetServiceTA, before the
refresh or failure continuation. -/
inductive PassResult where
  | storeError (e : JsError)
  | typeError
  | ticket (token sign : JVal)
  | noTicket

/-- The validation block of GetServiceTA applied to the value read from
storage (afipDataToken): the truthiness guard, the expiration check
against now + 600000 ms, and the credentials projection.  parse is the
host Date string parser; a failed property access yields typeError. -/
def passValidate (parse : String → Option Int) (now : Int) (tok : JVal) : PassResult :=
  if tok.truthy then
    match tok.getField "header" with
    | none => .typeError
    | some hd =>
      match hd.getIndex 1 with
      | none => .typeError
      | some hd1 =>
        match hd1.getField "expirationtime" with
        | none => .typeError
        | some expv =>
          if jsDateLt (some (now + 600000)) (jsDateOf parse expv) then
            match tok.getField "credentials" with
            | none => .typeError
            | some c =>
              match c.getField "token" with
              | none => .typeError
              | some t =>
                match c.getField "sign" with
                | none => .typeError
                | some s => .ticket t s
          else .noTicket
  else .noTicket

/-- One read-and-validate pass of GetServiceTA: the storage read with
its catch clause, then the validation block.  When the read throws,
afipDataToken stays null (falsy), so control falls through to the
refresh or failure continuation. -/
def getServiceTAPass (parse : String → Option Int) (now : Int)
    (read : Except JsError JVal) : PassResult :=
  match read with
  | .error e => if rethrowAfterLog e then .storeError e else passValidate parse now .null
  | .ok v => passValidate parse now v

/-- Result of a whole GetServiceTA call. -/
inductive TAResult where
  | ok (token sign : JVal)
  | thrownStore (e : JsError)
  | thrownMsg (msg : String)
  | typeError
  | outOfFuel

/-- Environment of one GetServiceTA call chain: the host date parser,
Date.now at each attempt, the storage read outcome of each attempt
(indexed by the firstTry flag), and the CreateServiceTA outcome (its
rejection value already converted to a string, as the template literal
in the catch does). -/
structure TAEnv where
  parse : String → Option Int
  now : Bool → Int
  read : Bool → Except JsError JVal
  create : Except String Unit

/-- GetServiceTA with explicit recursion fuel over the firstTry flag;
the second result component counts CreateServiceTA invocations.  The
source recursion GetServiceTA(service, false) is the fuel step. -/
def getServiceTAFuel (env : TAEnv) : Nat → Bool → TAResult × Nat
  | 0, _ => (.outOfFuel, 0)
  | n + 1, firstTry =>
    match getServiceTAPass env.parse (env.now firstTry) (env.read firstTry) with
    | .ticket t s => (.ok t s, 0)
    | .storeError e => (.thrownStore e, 0)
    | .typeError => (.typeError, 0)
    | .noTicket =>
      if firstTry = false then (.thrownMsg "Error getting Token Autorization", 0)
      else
        match env.create with
        | .error err => (.thrownMsg ("Error getting Token Autorization " ++ err), 1)
        | .ok _ =>
          let r := getServiceTAFuel env n false
          (r.1, r.2 + 1)

/-- A GetServiceTA call as made by callers: firstTry = true.  Fuel 2
suffices, which is proved (not assumed) below. -/
def GetServiceTA (env : TAEnv) : TAResult × Nat :=
  getServiceTAFuel env 2 true

/-
  Afip.prototype.CreateServiceTA (src/Class/ExportElectronicBilling.js).

  The stages, in source order: build the login ticket request XML (pure),
  read the certificate and key files (Promise.all), build and sign the
  PKCS#7 envelope (forge), create the SOAP client, call loginCms with the
  signed request, parse loginCmsReturn with the XML parser, then write
  JSON.stringify(res.loginticketresponse) under the ticket key.  The value
  produced by each effectful stage is an input of the embedding; no stage
  validates the presence of token, sign or expirationtime fields.
-/

/-- Outcomes of the effectful stages of one CreateServiceTA call. -/
structure CreateEnv where
  certRead : Except String String
  keyRead : Except String String
  signStep : Except String String
  soapCreate : Except String Unit
  loginCall : Except String String
  parseXml : Except String JVal
  write : Except String Unit

/-- CreateServiceTA: returns the call outcome and the list of records
stored by the ticket write (empty when no write completed).  The stored
record is the loginticketresponse subtree of the parsed login response,
exactly as serialized by the source. -/
def CreateServiceTA (env : CreateEnv) : Except String Unit × List JVal :=
  match env.certRead with
  | .error e => (.error e, [])
  | .ok _ =>
  match env.keyRead with
  | .error e => (.error e, [])
  | .ok _ =>
  match env.signStep with
  | .error e => (.error e, [])
  | .ok _ =>
  match env.soapCreate with
  | .error e => (.error e, [])
  | .ok _ =>
  match env.loginCall with
  | .error e => (.error e, [])
  | .ok _ =>
  match env.parseXml with
  | .error e => (.error e, [])
  | .ok res =>
    match res.getField "loginticketresponse" with
    | none => (.error "TypeError", [])
    | some ta =>
      match env.write with
      | .error _ => (.error "undefined", [])
      | .ok _ => (.ok (), [ta])

/-
  The gateway request path of the two adapter classes.

  ElectronicBilling.executeRequest (src/Class/ElectronicBilling.js):
    Object.assign(params, await this.getWSInitialRequest(operation));
    const results = await super.executeRequest(operation, params);
    await this._checkErrors(operation, results);
    return results[operation + "Result"];

  The post-call phase (checkErrors and the result projection) is
  embedded below over the response value; _checkErrors mutates the
  response in place, so its embedding returns the updated response.
-/

/-- Outcome of a _checkErrors call: either the (possibly updated in
place) response when nothing is thrown, or the code and message values
the raised error is built from; a TypeError during inspection is the
surrounding none. -/
inductive ChkOut where
  | ok (results : JVal)
  | thrown (code msg : JVal)

/-- ElectronicBilling._checkErrors.  First, for FECAESolicitar with a
truthy FeDetResp, an array-valued FECAEDetResponse is unwrapped in
place to its first element and, when Observaciones is truthy with
Resultado not strictly equal to "A", res.Errors is set to the
observation list.  Second, a truthy res.Errors raises an error from
res.Errors.Err, taking index 0 of an array-valued entry. -/
def checkErrorsFE (op : String) (results : JVal) : Option ChkOut := do
  let res0 ← results.getField (op ++ "Result")
  let (res1, results1) ←
    if op = "FECAESolicitar" then do
      let fd ← res0.getField "FeDetResp"
      if fd.truthy then do
        let det ← fd.getField "FECAEDetResponse"
        let (fd2, res2, results2) :=
          match det with
          | .arr l =>
            let fd2 := fd.setField "FECAEDetResponse" (l.getD 0 .undefined)
            let res2 := res0.setField "FeDetResp" fd2
            (fd2, res2, results.setField (op ++ "Result") res2)
          | _ => (fd, res0, results)
        let det2 ← fd2.getField "FECAEDetResponse"
        let obs ← det2.getField "Observaciones"
        if obs.truthy then do
          let resultado ← det2.getField "Resultado"
          if jsStrictEqStr resultado "A" then
            pure (res2, results2)
          else do
            let obsObs ← obs.getField "Obs"
            let res3 := res2.setField "Errors" (.obj [("Err", obsObs)])
            pure (res3, results2.setField (op ++ "Result") res3)
        else
          pure (res2, results2)
      else
        pure (res0, results)
    else
      pure (res0, results)
  let errs ← res1.getField "Errors"
  if errs.truthy then do
    let errEntry ← errs.getField "Err"
    let err := match errEntry with
               | .arr l => l.getD 0 .undefined
               | other => other
    let code ← err.getField "Code"
    let msg ← err.getField "Msg"
    pure (ChkOut.thrown code msg)
  else
    pure (ChkOut.ok results1)

/-- ExportElectronicBilling._checkErrors: a truthy res.FEXErr whose
ErrCode property is loosely unequal to 0 selects index 0 of an
array-valued FEXErr (else the scalar) and raises an error from its
ErrCode and ErrMsg when +ErrCode is strictly nonzero.  No in-place
update is performed. -/
def checkErrorsFEX (op : String) (results : JVal) : Option ChkOut := do
  let res ← results.getField (op ++ "Result")
  let fexErr ← res.getField "FEXErr"
  if fexErr.truthy then do
    let ec0 ← fexErr.getField "ErrCode"
    if jsLooseNeZero ec0 then do
      let err := match fexErr with
                 | .arr l => l.getD 0 .undefined
                 | other => other
      let ec ← err.getField "ErrCode"
      if jsPlusStrictNeZero ec then do
        let em ← err.getField "ErrMsg"
        pure (ChkOut.thrown ec em)
      else
        pure (ChkOut.ok results)
    else
      pure (ChkOut.ok results)
  else
    pure (ChkOut.ok results)

/-- The post-call phase of ElectronicBilling.executeRequest: run
_checkErrors on the response, then project the operation result
subtree from the (possibly updated) response.  none is a TypeError,
Except.error carries the raised code and message pair. -/
def executeRequestFE (op : String) (results : JVal) :
    Option (Except (JVal × JVal) JVal) :=
  match checkErrorsFE op results with
  | none => none
  | some (.thrown c m) => some (.error (c, m))
  | some (.ok results1) => (results1.getField (op ++ "Result")).map .ok

/-- The post-call phase of ExportElectronicBilling.executeRequest. -/
def executeRequestFEX (op : String) (results : JVal) :
    Option (Except (JVal × JVal) JVal) :=
  match checkErrorsFEX op results with
  | none => none
  | some (.thrown c m) => some (.error (c, m))
  | some (.ok results1) => (results1.getField (op ++ "Result")).map .ok

/-
  getWSInitialRequest of the two adapter classes.  Each returns the
  parameters merged into the outbound request before the remote call;
  the Bool records whether this.afip.GetServiceTA was invoked (the
  token and sign values it returned are parameters here).
-/

/-- ElectronicBilling.getWSInitialRequest: empty for the FEDummy
operation, else the Auth object around the ticket and the CUIT. -/
def getWSInitialRequestFE (operation : String) (token sign cuit : JVal) :
    Bool × JVal :=
  if operation = "FEDummy" then (false, .obj [])
  else
    (true, .obj [("Auth", .obj [("Token", token), ("Sign", sign), ("Cuit", cuit)])])

/-- ExportElectronicBilling.getWSInitialRequest: the guard again tests
the literal "FEDummy"; every other operation fetches a ticket, and
FEXGetLast_CMP additionally copies Pto_venta and Cbte_Tipo inside
Auth.  none is a TypeError reading those two fields. -/
def getWSInitialRequestFEX (operation : String) (params : JVal)
    (token sign cuit : JVal) : Option (Bool × JVal) :=
  if operation = "FEDummy" then some (false, .obj [])
  else
    if operation = "FEXGetLast_CMP" then do
      let pv ← params.getField "Pto_venta"
      let ct ← params.getField "Cbte_Tipo"
      pure (true, .obj [("Auth", .obj [("Token", token), ("Sign", sign),
        ("Cuit", cuit), ("Pto_venta", pv), ("Cbte_Tipo", ct)])])
    else
      some (true, .obj [("Auth", .obj [("Token", token), ("Sign", sign), ("Cuit", cuit)])])

/-
  Helper lemmas shared by the claim theorems.
-/

/-- The catch clause of GetServiceTA never rethrows: by operator
precedence, !e.message is a boolean and is never strictly equal to the
string literal, whatever the message is. -/
theorem rethrowAfterLog_eq_false (e : JsError) : rethrowAfterLog e = false := rfl

/-- A firstTry = false call never recurses, so its fuel is irrelevant
beyond one step. -/
theorem getServiceTAFuel_false_step (env : TAEnv) (m : Nat) :
    getServiceTAFuel env (m + 1) false = getServiceTAFuel env 1 false := by
  rcases h : getServiceTAPass env.parse (env.now false) (env.read false) with e | _ | ⟨t, s⟩ | _ <;>
    simp [getServiceTAFuel, h]

/-- A firstTry = false call never invokes CreateServiceTA. -/
theorem getServiceTAFuel_false_count (env : TAEnv) (m : Nat) :
    (getServiceTAFuel env (m + 1) false).2 = 0 := by
  rcases h : getServiceTAPass env.parse (env.now false) (env.read false) with e | _ | ⟨t, s⟩ | _ <;>
    simp [getServiceTAFuel, h]

/-
  Claim theorems.
-/

/-- C1: the claim says a storage error other than NotFound propagates
out of getTicket and the refresh path is not entered.  The code does
the opposite: the rethrow condition (!e.message === the NotFound
message) compares a boolean against a string, so it is false for every
error, every storage error is swallowed, afipDataToken stays null and
the pass falls through to the refresh path.  This theorem evaluates the
code at the failing inputs: for every error, including every
non-NotFound one, the read-and-validate pass yields noTicket (refresh)
and never a propagated store error. -/
theorem C1_store_errors_all_swallowed :
    (∀ e : JsError, rethrowAfterLog e = false) ∧
    (∀ (parse : String → Option Int) (now : Int) (e : JsError),
      getServiceTAPass parse now (.error e) = .noTicket) :=
  ⟨fun _ => rfl, fun _ _ _ => rfl⟩

/-- C2: a stored ticket whose expiration time is at or before
now + 600000 ms is never returned by the read-and-validate pass, which
yields noTicket exactly as for an absent ticket, and the surrounding
call then enters the refresh path (CreateServiceTA is invoked at least
once). -/
theorem C2_expiring_ticket_forces_refresh (env : TAEnv) (v hd hd1 : JVal)
    (s : String) (exp : Int)
    (hread : env.read true = .ok v)
    (htr : v.truthy = true)
    (hhd : v.getField "header" = some hd)
    (hhd1 : hd.getIndex 1 = some hd1)
    (hexp : hd1.getField "expirationtime" = some (.str s))
    (hparse : env.parse s = some exp)
    (hle : exp ≤ env.now true + 600000) :
    getServiceTAPass env.parse (env.now true) (env.read true) = .noTicket ∧
    1 ≤ (GetServiceTA env).2 := by
  have hpass : getServiceTAPass env.parse (env.now true) (env.read true) = .noTicket := by
    rw [hread]
    simp only [getServiceTAPass, passValidate, htr, hhd, hhd1, hexp, if_true]
    have : jsDateLt (some (env.now true + 600000)) (jsDateOf env.parse (.str s)) = false := by
      simp [jsDateOf, hparse, jsDateLt]
      omega
    simp [this]
  refine ⟨hpass, ?_⟩
  unfold GetServiceTA
  rcases hc : env.create with err | u <;>
    simp [getServiceTAFuel, hpass, hc]

/-- C2 witness: a concrete expired ticket (expiration equal to
now + 600000) is not returned and the refresh path is entered. -/
theorem C2_expiring_ticket_forces_refresh_witness :
    getServiceTAPass
      (fun s => if s = "2023-01-01T00:10:00.000Z" then some 600000 else none) 0
      (.ok (.obj [("header", .arr [.null,
          .obj [("expirationtime", .str "2023-01-01T00:10:00.000Z")]]),
        ("credentials", .obj [("token", .str "tok"), ("sign", .str "sig")])]))
      = .noTicket ∧
    1 ≤ (GetServiceTA
      { parse := fun s => if s = "2023-01-01T00:10:00.000Z" then some 600000 else none
        now := fun _ => 0
        read := fun _ => .ok (.obj [("header", .arr [.null,
            .obj [("expirationtime", .str "2023-01-01T00:10:00.000Z")]]),
          ("credentials", .obj [("token", .str "tok"), ("sign", .str "sig")])])
        create := .ok () }).2 :=
  C2_expiring_ticket_forces_refresh
    { parse := fun s => if s = "2023-01-01T00:10:00.000Z" then some 600000 else none
      now := fun _ => 0
      read := fun _ => .ok (.obj [("header", .arr [.null,
          .obj [("expirationtime", .str "2023-01-01T00:10:00.000Z")]]),
        ("credentials", .obj [("token", .str "tok"), ("sign", .str "sig")])])
      create := .ok () }
    (.obj [("header", .arr [.null,
        .obj [("expirationtime", .str "2023-01-01T00:10:00.000Z")]]),
      ("credentials", .obj [("token", .str "tok"), ("sign", .str "sig")])])
    (.arr [.null, .obj [("expirationtime", .str "2023-01-01T00:10:00.000Z")]])
    (.obj [("expirationtime", .str "2023-01-01T00:10:00.000Z")])
    "2023-01-01T00:10:00.000Z" 600000
    rfl rfl rfl rfl rfl rfl (by decide)

/-- C3: a stored ticket whose expiration time is strictly after
now + 600000 ms is returned with its token and sign unchanged, and
CreateServiceTA (the only site of issuance and of ticket writes) is
invoked zero times. -/
theorem C3_fresh_ticket_returned_without_issuance (env : TAEnv)
    (v hd hd1 c t g : JVal) (s : String) (exp : Int)
    (hread : env.read true = .ok v)
    (htr : v.truthy = true)
    (hhd : v.getField "header" = some hd)
    (hhd1 : hd.getIndex 1 = some hd1)
    (hexp : hd1.getField "expirationtime" = some (.str s))
    (hparse : env.parse s = some exp)
    (hlt : env.now true + 600000 < exp)
    (hcred : v.getField "credentials" = some c)
    (htok : c.getField "token" = some t)
    (hsig : c.getField "sign" = some g) :
    GetServiceTA env = (.ok t g, 0) := by
  have hpass : getServiceTAPass env.parse (env.now true) (env.read true) = .ticket t g := by
    rw [hread]
    simp only [getServiceTAPass, passValidate, htr, hhd, hhd1, hexp, if_true]
    have : jsDateLt (some (env.now true + 600000)) (jsDateOf env.parse (.str s)) = true := by
      simp [jsDateOf, hparse, jsDateLt, hlt]
    simp [this, hcred, htok, hsig]
  unfold GetServiceTA
  simp [getServiceTAFuel, hpass]

/-- C3 witness: a concrete still-fresh ticket is returned as stored,
with zero CreateServiceTA invocations. -/
theorem C3_fresh_ticket_returned_without_issuance_witness :
    GetServiceTA
      { parse := fun s => if s = "2030-01-01T00:00:00.000Z" then some 1893456000000 else none
        now := fun _ => 0
        read := fun _ => .ok (.obj [("header", .arr [.null,
            .obj [("expirationtime", .str "2030-01-01T00:00:00.000Z")]]),
          ("credentials", .obj [("token", .str "tok"), ("sign", .str "sig")])])
        create := .error "never used" }
      = (.ok (.str "tok") (.str "sig"), 0) :=
  C3_fresh_ticket_returned_without_issuance
    { parse := fun s => if s = "2030-01-01T00:00:00.000Z" then some 1893456000000 else none
      now := fun _ => 0
      read := fun _ => .ok (.obj [("header", .arr [.null,
          .obj [("expirationtime", .str "2030-01-01T00:00:00.000Z")]]),
        ("credentials", .obj [("token", .str "tok"), ("sign", .str "sig")])])
      create := .error "never used" }
    (.obj [("header", .arr [.null,
        .obj [("expirationtime", .str "2030-01-01T00:00:00.000Z")]]),
      ("credentials", .obj [("token", .str "tok"), ("sign", .str "sig")])])
    (.arr [.null, .obj [("expirationtime", .str "2030-01-01T00:00:00.000Z")]])
    (.obj [("expirationtime", .str "2030-01-01T00:00:00.000Z")])
    (.obj [("token", .str "tok"), ("sign", .str "sig")])
    (.str "tok") (.str "sig")
    "2030-01-01T00:00:00.000Z" 1893456000000
    rfl rfl rfl rfl rfl rfl (by decide) rfl rfl rfl

/-- C4: the refresh path runs at most once per call chain.  First,
fuel beyond 2 is never consumed, so the firstTry recursion has depth
at most 2.  Second, CreateServiceTA is invoked at most once in any
call.  Third, when the refresh succeeds but the second read-and-validate
pass still yields no usable ticket, the call fails with the message
Error getting Token Autorization after exactly one refresh. -/
theorem C4_refresh_at_most_once :
    (∀ (env : TAEnv) (n : Nat), getServiceTAFuel env (n + 2) true = GetServiceTA env) ∧
    (∀ env : TAEnv, (GetServiceTA env).2 ≤ 1) ∧
    (∀ env : TAEnv, env.create = .ok () →
      getServiceTAPass env.parse (env.now true) (env.read true) = .noTicket →
      getServiceTAPass env.parse (env.now false) (env.read false) = .noTicket →
      GetServiceTA env = (.thrownMsg "Error getting Token Autorization", 1)) := by
  refine ⟨?_, ?_, ?_⟩
  · intro env n
    unfold GetServiceTA
    rcases h : getServiceTAPass env.parse (env.now true) (env.read true) with e | _ | ⟨t, s⟩ | _ <;>
      simp [getServiceTAFuel, h]
  · intro env
    unfold GetServiceTA
    rcases h : getServiceTAPass env.parse (env.now true) (env.read true) with e | _ | ⟨t, s⟩ | _ <;>
      simp [getServiceTAFuel, h]
    rcases hc : env.create with err | u <;> simp [hc]
    rcases h2 : getServiceTAPass env.parse (env.now false) (env.read false) with
      e2 | _ | ⟨t2, s2⟩ | _ <;> simp [h2]
  · intro env hc h1 h2
    unfold GetServiceTA
    simp [getServiceTAFuel, h1, hc, h2]

/-- The length of the ticket key: the fixed parts contribute 9
characters in test and 20 in production. -/
theorem taFilePathGet_length (cuit service : String) (b : Bool) :
    (taFilePathGet cuit service b).length =
      cuit.length + service.length + (if b then 20 else 9) := by
  have h1 : ("TA-" : String).length = 3 := rfl
  have h2 : ("-" : String).length = 1 := rfl
  have h3 : (".json" : String).length = 5 := rfl
  have h4 : ("-production" : String).length = 11 := rfl
  have h5 : ("" : String).length = 0 := rfl
  rcases b <;>
    simp only [taFilePathGet, String.length_append, h1, h2, h3, h4, h5,
      if_true, if_false, Bool.false_eq_true, Bool.true_eq_false, ite_true, ite_false] <;>
    omega

/-- C9 counterexample: the claim adds that tickets for different
environments or services never share a storage key, but the key
template is not injective over arbitrary service names: the service
wsfex-production in the test environment and the service wsfex in the
production environment map to the same key. -/
theorem C9_key_collision_counterexample :
    taFilePathGet "20111111112" "wsfex-production" false =
      taFilePathGet "20111111112" "wsfex" true ∧
    ("wsfex-production", false) ≠ ("wsfex", true) := by
  constructor
  · rfl
  · decide

/-- C9 amended: both the read in GetServiceTA and the write in
CreateServiceTA use exactly the key TA-(CUIT)-(service).json in test
and TA-(CUIT)-(service)-production.json in production; for a fixed
service the two environments never share a key, and the services of
this repository (wsfe and wsfex) yield four pairwise distinct keys;
arbitrary service names, however, may collide across environments. -/
theorem C9_key_format_amended :
    (∀ cuit service : String,
      taFilePathGet cuit service false = "TA-" ++ cuit ++ "-" ++ service ++ ".json") ∧
    (∀ cuit service : String,
      taFilePathGet cuit service true =
        "TA-" ++ cuit ++ "-" ++ service ++ "-production.json") ∧
    (∀ (cuit service : String) (b : Bool),
      taFileNameCreate cuit service b = taFilePathGet cuit service b) ∧
    (∀ cuit service : String,
      taFilePathGet cuit service false ≠ taFilePathGet cuit service true) ∧
    (∀ cuit : String,
      [taFilePathGet cuit "wsfe" false, taFilePathGet cuit "wsfe" true,
       taFilePathGet cuit "wsfex" false, taFilePathGet cuit "wsfex" true].Pairwise (· ≠ ·)) := by
  refine ⟨?_, ?_, ?_, ?_, ?_⟩
  · intro cuit service
    simp [taFilePathGet, String.append_assoc]
  · intro cuit service
    simp [taFilePathGet, String.append_assoc]
  · intro cuit service b
    rfl
  · intro cuit service h
    have := congrArg String.length h
    rw [taFilePathGet_length, taFilePathGet_length] at this
    simp at this
  · intro cuit
    have hne : ∀ (s1 s2 : String) (b1 b2 : Bool),
        s1.length + (if b1 then (20:Nat) else 9) ≠ s2.length + (if b2 then 20 else 9) →
        taFilePathGet cuit s1 b1 ≠ taFilePathGet cuit s2 b2 := by
      intro s1 s2 b1 b2 hlen h
      have := congrArg String.length h
      rw [taFilePathGet_length, taFilePathGet_length] at this
      omega
    refine List.Pairwise.cons ?_ (List.Pairwise.cons ?_ (List.Pairwise.cons ?_
      (List.Pairwise.cons (fun x hx => absurd hx (List.not_mem_nil x)) List.Pairwise.nil)))
    · intro x hx
      simp only [List.mem_cons, List.not_mem_nil, or_false] at hx
      rcases hx with rfl | rfl | rfl <;> exact hne _ _ _ _ (by decide)
    · intro x hx
      simp only [List.mem_cons, List.not_mem_nil, or_false] at hx
      rcases hx with rfl | rfl <;> exact hne _ _ _ _ (by decide)
    · intro x hx
      simp only [List.mem_cons, List.not_mem_nil, or_false] at hx
      rcases hx with rfl
      exact hne _ _ _ _ (by decide)

/-- C4 witness: with an empty store on both passes and a succeeding
refresh, the call fails with the authorization error after exactly one
CreateServiceTA invocation. -/
theorem C4_refresh_at_most_once_witness :
    GetServiceTA
      { parse := fun _ => none
        now := fun _ => 0
        read := fun _ => .ok .null
        create := .ok () }
      = (.thrownMsg "Error getting Token Autorization", 1) :=
  C4_refresh_at_most_once.2.2
    { parse := fun _ => none
      now := fun _ => 0
      read := fun _ => .ok .null
      create := .ok () }
    rfl rfl rfl

/-- C10 counterexample: the claim says any truthy stored record whose
header is not an array of at least two elements carrying an
expirationtime on the second element makes getTicket throw a TypeError.
A record whose header has two elements but whose second element lacks
expirationtime is such a record, yet no TypeError is thrown: reading
expirationtime yields undefined, new Date(undefined) is an Invalid
Date, the freshness comparison is false and the pass falls through to
the refresh path. -/
theorem C10_no_typeerror_counterexample :
    (JVal.obj [("header", .arr [.null, .obj [("note", .str "no expiration here")]]),
      ("credentials", .obj [("token", .str "t"), ("sign", .str "g")])]).truthy = true ∧
    getServiceTAPass (fun _ => none) 0
      (.ok (.obj [("header", .arr [.null, .obj [("note", .str "no expiration here")]]),
        ("credentials", .obj [("token", .str "t"), ("sign", .str "g")])]))
      = .noTicket ∧
    PassResult.noTicket ≠ PassResult.typeError :=
  ⟨rfl, rfl, fun h => PassResult.noConfusion h⟩

/-- C10 amended: for a truthy stored record, getTicket throws a
TypeError when dereferencing header[1].expirationtime fails at a
property access on undefined or null: when indexing header itself
throws (header undefined or null, covering a missing header), or when
header has no element at position 1 so that reading expirationtime
throws (covering a single-element header); but when header[1] exists
and merely lacks expirationtime, no TypeError occurs at the header
chain and the pass treats the record as expired, falling through to
the refresh path.  A TypeError is not confined to the header chain:
a record whose expiration is still fresh but which lacks credentials
throws a TypeError from credentials.token, as the last conjunct
proves. -/
theorem C10_header_deref_amended (parse : String → Option Int) (now : Int)
    (v hd : JVal)
    (htr : v.truthy = true)
    (hhd : v.getField "header" = some hd) :
    (hd.getIndex 1 = none → getServiceTAPass parse now (.ok v) = .typeError) ∧
    (∀ hd1, hd.getIndex 1 = some hd1 → hd1.getField "expirationtime" = none →
      getServiceTAPass parse now (.ok v) = .typeError) ∧
    (∀ hd1, hd.getIndex 1 = some hd1 → hd1.getField "expirationtime" = some .undefined →
      getServiceTAPass parse now (.ok v) = .noTicket) ∧
    (∀ hd1 (s : String) (exp : Int), hd.getIndex 1 = some hd1 →
      hd1.getField "expirationtime" = some (.str s) → parse s = some exp →
      now + 600000 < exp → v.getField "credentials" = some .undefined →
      getServiceTAPass parse now (.ok v) = .typeError) := by
  refine ⟨?_, ?_, ?_, ?_⟩
  · intro h1
    simp [getServiceTAPass, passValidate, htr, hhd, h1]
  · intro hd1 h1 h2
    simp [getServiceTAPass, passValidate, htr, hhd, h1, h2]
  · intro hd1 h1 h2
    simp [getServiceTAPass, passValidate, htr, hhd, h1, h2, jsDateOf, jsDateLt]
  · intro hd1 s exp h1 h2 hparse hlt hcred
    simp [getServiceTAPass, passValidate, htr, hhd, h1, h2,
      jsDateOf, jsDateLt, hparse, hlt, hcred]
    rfl

/-- C10 witness: a record whose header field is null throws a
TypeError when header[1] is dereferenced. -/
theorem C10_header_deref_amended_witness :
    getServiceTAPass (fun _ => none) 0 (.ok (.obj [("header", .null)])) = .typeError :=
  (C10_header_deref_amended (fun _ => none) 0 (.obj [("header", .null)]) .null
    rfl rfl).1 rfl

/-- C6: the claim says both health-check operations (FEDummy for
domestic billing, FEXDummy for export billing) skip the ticket fetch.
The domestic class behaves as claimed: FEDummy returns empty initial
parameters without invoking GetServiceTA, and every other operation
fetches a ticket and merges Token, Sign and Cuit under Auth.  The
export class, however, guards on the literal FEDummy as well, an
operation it never issues, so its own health check FEXDummy (issued by
getServerStatus) does invoke GetServiceTA and merges Auth into the
outbound parameters, contradicting the claim; the third conjunct
evaluates the code at this failing input. -/
theorem C6_health_check_guard :
    (∀ token sign cuit : JVal,
      getWSInitialRequestFE "FEDummy" token sign cuit = (false, .obj [])) ∧
    (∀ (op : String) (token sign cuit : JVal), op ≠ "FEDummy" →
      getWSInitialRequestFE op token sign cuit =
        (true, .obj [("Auth", .obj [("Token", token), ("Sign", sign), ("Cuit", cuit)])])) ∧
    (∀ params token sign cuit : JVal,
      getWSInitialRequestFEX "FEXDummy" params token sign cuit =
        some (true, .obj [("Auth", .obj [("Token", token), ("Sign", sign), ("Cuit", cuit)])])) := by
  refine ⟨fun _ _ _ => rfl, ?_, fun _ _ _ _ => rfl⟩
  intro op token sign cuit hop
  simp [getWSInitialRequestFE, hop]

/-- C6 witness: a non-health-check operation of the domestic class
fetches a ticket and merges Auth. -/
theorem C6_health_check_guard_witness :
    getWSInitialRequestFE "FECAESolicitar" (.str "T") (.str "S") (.num 20111111112) =
      (true, .obj [("Auth", .obj [("Token", .str "T"), ("Sign", .str "S"),
        ("Cuit", .num 20111111112)])]) :=
  C6_health_check_guard.2.1 "FECAESolicitar" (.str "T") (.str "S") (.num 20111111112)
    (by decide)

/-- The environment of a CreateServiceTA call in which every stage
succeeds but the parsed login response carries no credentials: used to
exhibit that no field validation precedes the ticket write. -/
def createEnvNoCredentials : CreateEnv :=
  { certRead := .ok "CERT PEM"
    keyRead := .ok "KEY PEM"
    signStep := .ok "U0lHTkVE"
    soapCreate := .ok ()
    loginCall := .ok "<loginTicketResponse/>"
    parseXml := .ok (.obj [("loginticketresponse",
      .obj [("header", .arr [.null, .obj [("expirationtime", .str "2030-01-01T00:00:00.000Z")]])])])
    write := .ok () }

/-- C7 counterexample: the claim says issuance fails on a missing
required field (token, sign, expiration time) and never persists a
half-formed record.  With every stage succeeding and a parseable login
response that has a header but no credentials at all, CreateServiceTA
succeeds and persists that credential-less record under the ticket
key. -/
theorem C7_incomplete_ticket_persisted_counterexample :
    CreateServiceTA createEnvNoCredentials =
      (.ok (), [.obj [("header",
        .arr [.null, .obj [("expirationtime", .str "2030-01-01T00:00:00.000Z")]])]]) ∧
    (JVal.obj [("header",
        .arr [.null, .obj [("expirationtime", .str "2030-01-01T00:00:00.000Z")]])]).getField
      "credentials" = some .undefined :=
  ⟨rfl, rfl⟩

/-- C7 amended: CreateServiceTA fails with an error on any failing
stage (certificate read, key read, signing, SOAP client creation,
login call, response parsing) and the ticket write happens only after
every stage has succeeded, storing exactly the loginticketresponse
subtree of the parsed response; no validation of token, sign or
expiration-time presence is performed on the stored record. -/
theorem C7_write_gated_amended (env : CreateEnv) (v : JVal)
    (hv : v ∈ (CreateServiceTA env).2) :
    (∃ a, env.certRead = .ok a) ∧ (∃ a, env.keyRead = .ok a) ∧
    (∃ a, env.signStep = .ok a) ∧ (∃ a, env.soapCreate = .ok a) ∧
    (∃ a, env.loginCall = .ok a) ∧
    (∃ r, env.parseXml = .ok r ∧ r.getField "loginticketresponse" = some v) ∧
    env.write = .ok () ∧ CreateServiceTA env = (.ok (), [v]) := by
  rcases h1 : env.certRead with e1 | a1 <;> simp [CreateServiceTA, h1] at hv ⊢
  rcases h2 : env.keyRead with e2 | a2 <;> simp [h2] at hv ⊢
  rcases h3 : env.signStep with e3 | a3 <;> simp [h3] at hv ⊢
  rcases h4 : env.soapCreate with e4 | a4 <;> simp [h4] at hv ⊢
  rcases h5 : env.loginCall with e5 | a5 <;> simp [h5] at hv ⊢
  rcases h6 : env.parseXml with e6 | res <;> simp [h6] at hv ⊢
  rcases h7 : res.getField "loginticketresponse" with _ | ta <;> rw [h7] at hv <;> simp at hv
  rcases h8 : env.write with e8 | u8 <;> rw [h8] at hv <;> simp at hv
  subst hv
  rcases u8
  simp [h7, h8]

/-- C7 witness: a fully successful issuance with a complete response
stores exactly the parsed loginticketresponse subtree. -/
theorem C7_write_gated_amended_witness :
    (∃ a, (createEnvNoCredentials).certRead = .ok a) ∧
    (∃ a, (createEnvNoCredentials).keyRead = .ok a) ∧
    (∃ a, (createEnvNoCredentials).signStep = .ok a) ∧
    (∃ a, (createEnvNoCredentials).soapCreate = .ok a) ∧
    (∃ a, (createEnvNoCredentials).loginCall = .ok a) ∧
    (∃ r, (createEnvNoCredentials).parseXml = .ok r ∧
      r.getField "loginticketresponse" = some (.obj [("header",
        .arr [.null, .obj [("expirationtime", .str "2030-01-01T00:00:00.000Z")]])])) ∧
    (createEnvNoCredentials).write = .ok () ∧
    CreateServiceTA createEnvNoCredentials = (.ok (), [.obj [("header",
      .arr [.null, .obj [("expirationtime", .str "2030-01-01T00:00:00.000Z")]])]]) :=
  C7_write_gated_amended createEnvNoCredentials
    (.obj [("header", .arr [.null, .obj [("expirationtime", .str "2030-01-01T00:00:00.000Z")]])])
    (List.mem_singleton_self _)

/-- A response whose operation result carries a flat error list under
Errors.Err, as FECompConsultar and the other wsfe operations return
it. -/
def flatErrShape (op : String) (entry : JVal) : JVal :=
  .obj [(op ++ "Result", .obj [("Errors", .obj [("Err", entry)])])]

/-- A FECAESolicitar response whose detail carries an observation list
with a non-accepted result code. -/
def obsErrShape (entry : JVal) : JVal :=
  .obj [("FECAESolicitarResult", .obj [("FeDetResp", .obj [("FECAEDetResponse",
    .obj [("Observaciones", .obj [("Obs", entry)]), ("Resultado", .str "R")])])])]

/-- A wsfex response whose operation result carries a FEXErr error
object. -/
def fexErrShape (op : String) (entry : JVal) : JVal :=
  .obj [(op ++ "Result", .obj [("FEXErr", entry)])]

/-- C5 counterexample: the claim says the raised error is built from
the first offending entry of the list.  On a flat error list whose
first entry has code 0 (not an offending entry) and whose second entry
has code 5, the normalizer raises the error from the first entry,
yielding code 0 and message ok instead of the offending code 5 and
message bad: the error is built from the first entry, offending or
not. -/
theorem C5_first_entry_not_first_offending_counterexample :
    checkErrorsFE "FECompConsultar"
      (flatErrShape "FECompConsultar"
        (.arr [.obj [("Code", .num 0), ("Msg", .str "ok")],
               .obj [("Code", .num 5), ("Msg", .str "bad")]]))
      = some (.thrown (.num 0) (.str "ok")) ∧
    jsPlusStrictNeZero (.num 0) = false ∧
    jsPlusStrictNeZero (.num 5) = true :=
  ⟨rfl, rfl, rfl⟩

set_option maxHeartbeats 2000000 in
/-- C5 amended: each of the three error-bearing shapes raises an error
built from the first entry of its error list (an array-valued entry
contributes its element 0, a scalar entry itself); in the FEXErr shape
the guard additionally requires the inspected entry itself to have a
non-zero code.  When the first entry is the offending one, in
particular for every scalar or singleton-array entry with non-zero
code, the extracted code and message pair is the same across all three
shapes for equivalent error content. -/
theorem C5_error_shapes_amended (c : Int) (m : String) (hc : c ≠ 0) :
    checkErrorsFE "FECompConsultar"
      (flatErrShape "FECompConsultar" (.obj [("Code", .num c), ("Msg", .str m)]))
      = some (.thrown (.num c) (.str m)) ∧
    checkErrorsFE "FECompConsultar"
      (flatErrShape "FECompConsultar" (.arr [.obj [("Code", .num c), ("Msg", .str m)]]))
      = some (.thrown (.num c) (.str m)) ∧
    checkErrorsFE "FECAESolicitar"
      (obsErrShape (.obj [("Code", .num c), ("Msg", .str m)]))
      = some (.thrown (.num c) (.str m)) ∧
    checkErrorsFE "FECAESolicitar"
      (obsErrShape (.arr [.obj [("Code", .num c), ("Msg", .str m)]]))
      = some (.thrown (.num c) (.str m)) ∧
    checkErrorsFEX "FEXGetCMP"
      (fexErrShape "FEXGetCMP" (.obj [("ErrCode", .num c), ("ErrMsg", .str m)]))
      = some (.thrown (.num c) (.str m)) ∧
    checkErrorsFEX "FEXGetCMP"
      (fexErrShape "FEXGetCMP" (.arr [.obj [("ErrCode", .num c), ("ErrMsg", .str m)]]))
      = some (.thrown (.num c) (.str m)) := by
  have hb : (c != 0) = true := by simpa using hc
  refine ⟨?_, ?_, ?_, ?_, ?_, ?_⟩ <;>
    simp [checkErrorsFE, checkErrorsFEX, flatErrShape, obsErrShape, fexErrShape,
      JVal.getField, JVal.truthy, JVal.setField, JVal.setEntry, jsStrictEqStr, jsStrictEq,
      jsLooseNeZero, jsPlusStrictNeZero, jsToNumber, List.lookup, hb]

/-- C5 witness: the amended statement at code 5 and message bad. -/
theorem C5_error_shapes_amended_witness :
    checkErrorsFE "FECompConsultar"
      (flatErrShape "FECompConsultar" (.obj [("Code", .num 5), ("Msg", .str "bad")]))
      = some (.thrown (.num 5) (.str "bad")) ∧
    checkErrorsFE "FECompConsultar"
      (flatErrShape "FECompConsultar" (.arr [.obj [("Code", .num 5), ("Msg", .str "bad")]]))
      = some (.thrown (.num 5) (.str "bad")) ∧
    checkErrorsFE "FECAESolicitar"
      (obsErrShape (.obj [("Code", .num 5), ("Msg", .str "bad")]))
      = some (.thrown (.num 5) (.str "bad")) ∧
    checkErrorsFE "FECAESolicitar"
      (obsErrShape (.arr [.obj [("Code", .num 5), ("Msg", .str "bad")]]))
      = some (.thrown (.num 5) (.str "bad")) ∧
    checkErrorsFEX "FEXGetCMP"
      (fexErrShape "FEXGetCMP" (.obj [("ErrCode", .num 5), ("ErrMsg", .str "bad")]))
      = some (.thrown (.num 5) (.str "bad")) ∧
    checkErrorsFEX "FEXGetCMP"
      (fexErrShape "FEXGetCMP" (.arr [.obj [("ErrCode", .num 5), ("ErrMsg", .str "bad")]]))
      = some (.thrown (.num 5) (.str "bad")) :=
  C5_error_shapes_amended 5 "bad" (by decide)

/-- A bind chain that ends by raising an error never produces a
non-throwing outcome. -/
theorem thrownChain_ne_ok (r : JVal) (o0 : Option JVal) (g1 g2 : JVal → Option JVal) :
    (do
      let entry ← o0
      let code ← g1 entry
      let msg ← g2 entry
      pure (ChkOut.thrown code msg)) ≠ some (ChkOut.ok r) := by
  rcases o0 with _ | entry
  · simp
  · rcases h1 : g1 entry with _ | code <;> simp [h1]
    rcases h2 : g2 entry with _ | msg <;> simp [h2]

/-- The inner branch of the FEXErr check either raises or returns the
untouched response. -/
theorem fexInner_ok (err results r : JVal)
    (h : (do
      let ec ← err.getField "ErrCode"
      if jsPlusStrictNeZero ec then do
        let em ← err.getField "ErrMsg"
        pure (ChkOut.thrown ec em)
      else
        pure (ChkOut.ok results)) = some (ChkOut.ok r)) : r = results := by
  rcases hec : err.getField "ErrCode" with _ | ec <;>
    simp only [hec, Option.bind_eq_bind, Option.some_bind, Option.none_bind] at h
  · exact Option.noConfusion h
  by_cases hz : jsPlusStrictNeZero ec = true
  · rw [if_pos hz] at h
    rcases hem : err.getField "ErrMsg" with _ | em <;> simp [hem] at h
  · rw [if_neg hz] at h
    simp only [Option.pure_def] at h
    injection h with h1
    injection h1 with h2
    exact h2.symm

/-- For every operation other than FECAESolicitar, a non-throwing
_checkErrors run of the domestic class returns the response
untouched. -/
theorem checkErrorsFE_ok_of_ne (op : String) (results r : JVal)
    (hop : op ≠ "FECAESolicitar")
    (h : checkErrorsFE op results = some (.ok r)) : r = results := by
  unfold checkErrorsFE at h
  rcases hres : results.getField (op ++ "Result") with _ | res0 <;>
    simp only [hres, Option.bind_eq_bind, Option.some_bind, Option.none_bind] at h
  · exact Option.noConfusion h
  rw [if_neg hop] at h
  simp only [Option.pure_def, Option.some_bind] at h
  rcases herrs : res0.getField "Errors" with _ | errs <;>
    simp only [herrs, Option.some_bind, Option.none_bind] at h
  · exact Option.noConfusion h
  by_cases ht : errs.truthy = true
  · rw [if_pos ht] at h
    exact absurd h (thrownChain_ne_ok r _ _ _)
  · rw [if_neg ht] at h
    injection h with h1
    injection h1 with h2
    exact h2.symm

/-- A non-throwing _checkErrors run of the export class always returns
the response untouched, whatever the operation. -/
theorem checkErrorsFEX_ok (op : String) (results r : JVal)
    (h : checkErrorsFEX op results = some (.ok r)) : r = results := by
  unfold checkErrorsFEX at h
  rcases hres : results.getField (op ++ "Result") with _ | res <;>
    simp only [hres, Option.bind_eq_bind, Option.some_bind, Option.none_bind] at h
  · exact Option.noConfusion h
  rcases hfex : res.getField "FEXErr" with _ | fex <;>
    simp only [hfex, Option.some_bind, Option.none_bind] at h
  · exact Option.noConfusion h
  by_cases ht : fex.truthy = true
  · rw [if_pos ht] at h
    rcases hec : fex.getField "ErrCode" with _ | ec0 <;>
      simp only [hec, Option.some_bind, Option.none_bind] at h
    · exact Option.noConfusion h
    by_cases hz : jsLooseNeZero ec0 = true
    · rw [if_pos hz] at h
      exact fexInner_ok _ _ _ h
    · rw [if_neg hz] at h
      simp only [Option.pure_def] at h
      injection h with h1
      injection h1 with h2
      exact h2.symm
  · rw [if_neg ht] at h
    simp only [Option.pure_def] at h
    injection h with h1
    injection h1 with h2
    exact h2.symm

/-- C8 counterexample: the claim says a response that triggers no error
is returned with its operation result subtree structurally unchanged.
For FECAESolicitar with an accepted single-detail response, the
normalizer unwraps the array-valued FECAEDetResponse in place before
returning, so the returned subtree differs from the one the remote
call produced. -/
theorem C8_subtree_mutated_counterexample :
    executeRequestFE "FECAESolicitar"
      (.obj [("FECAESolicitarResult", .obj [("FeDetResp", .obj [("FECAEDetResponse",
        .arr [.obj [("Resultado", .str "A"), ("CAE", .str "75000000000000")]])])])])
      = some (.ok (.obj [("FeDetResp", .obj [("FECAEDetResponse",
          .obj [("Resultado", .str "A"), ("CAE", .str "75000000000000")])])])) ∧
    JVal.obj [("FeDetResp", .obj [("FECAEDetResponse",
        .obj [("Resultado", .str "A"), ("CAE", .str "75000000000000")])])] ≠
      JVal.obj [("FeDetResp", .obj [("FECAEDetResponse",
        .arr [.obj [("Resultado", .str "A"), ("CAE", .str "75000000000000")]])])] := by
  constructor
  · rfl
  · intro h
    exact Bool.noConfusion (congrArg (fun w =>
      ((((w.getField "FeDetResp").getD .undefined).getField
        "FECAEDetResponse").getD .undefined).isArr) h)

/-- C8 amended: for every operation other than FECAESolicitar in the
domestic class, and for every operation of the export class, a
response that triggers no error has its operation result subtree
returned unchanged; for FECAESolicitar the subtree may first be
updated in place (an array-valued FECAEDetResponse is unwrapped to its
first element, and a rejected observation list is copied to Errors)
before being returned. -/
theorem C8_result_subtree_amended :
    (∀ (op : String) (results v : JVal), op ≠ "FECAESolicitar" →
      executeRequestFE op results = some (.ok v) →
      results.getField (op ++ "Result") = some v) ∧
    (∀ (op : String) (results v : JVal),
      executeRequestFEX op results = some (.ok v) →
      results.getField (op ++ "Result") = some v) := by
  constructor
  · intro op results v hop h
    unfold executeRequestFE at h
    rcases hchk : checkErrorsFE op results with _ | out <;> rw [hchk] at h
    · exact Option.noConfusion h
    rcases out with r1 | ⟨c, m⟩
    · have hr1 : r1 = results := checkErrorsFE_ok_of_ne op results r1 hop hchk
      subst hr1
      rcases hg : r1.getField (op ++ "Result") with _ | w <;> simp [hg] at h
      rw [h]
    · simp at h
  · intro op results v h
    unfold executeRequestFEX at h
    rcases hchk : checkErrorsFEX op results with _ | out <;> rw [hchk] at h
    · exact Option.noConfusion h
    rcases out with r1 | ⟨c, m⟩
    · have hr1 : r1 = results := checkErrorsFEX_ok op results r1 hchk
      subst hr1
      rcases hg : r1.getField (op ++ "Result") with _ | w <;> simp [hg] at h
      rw [h]
    · simp at h

/-- C8 witness: a last-voucher response of the domestic class is
returned unchanged, and a last-id response of the export class is
returned unchanged. -/
theorem C8_result_subtree_amended_witness :
    (JVal.obj [("FECompUltimoAutorizadoResult", .obj [("CbteNro", .num 26)])]).getField
      ("FECompUltimoAutorizado" ++ "Result") = some (.obj [("CbteNro", .num 26)]) ∧
    (JVal.obj [("FEXGetLast_IDResult", .obj [("FEXResultGet", .obj [("Id", .num 44)])])]).getField
      ("FEXGetLast_ID" ++ "Result") =
        some (.obj [("FEXResultGet", .obj [("Id", .num 44)])]) :=
  ⟨C8_result_subtree_amended.1 "FECompUltimoAutorizado"
      (.obj [("FECompUltimoAutorizadoResult", .obj [("CbteNro", .num 26)])])
      (.obj [("CbteNro", .num 26)]) (by decide) rfl,
   C8_result_subtree_amended.2 "FEXGetLast_ID"
      (.obj [("FEXGetLast_IDResult", .obj [("FEXResultGet", .obj [("Id", .num 44)])])])
      (.obj [("FEXResultGet", .obj [("Id", .num 44)])]) rfl⟩

end AfipSDK
